import Mathlib

/-!
# Verification of the piplup GPU-resource / frame-synchronization core

Shallow embedding of the repository's core components, translated from the
source files:

* `src/components/descriptors.rs`      — `DescriptorAllocator` (pool bookkeeping,
  `new`, `get_pool`, `allocate`, `reset_descriptors`, `clear_pools`)
* `src/components/deletion_queue.rs`   — `DeletionQueue` (`enqueue`, `flush`), `FType`
* `src/components/memory_allocator.rs` — event traces of `create_image_with_data`
  and `create_buffer_with_mapped_memory`
* `src/renderer.rs`                    — the ordered trace of effects performed by
  `Renderer::draw`, and `ImageIndex`

GPU-side handles (`vk::DescriptorPool`, `vk::Buffer`, descriptor sets, layouts)
are opaque to the bookkeeping logic under verification, so they are modelled as
`Nat` identifiers.  Fallible device calls are driven by an explicit outcome
oracle (`DevOutcome`), mirroring the `Result` values the `ash` API returns.
-/

/-! ## Descriptor pools (`src/components/descriptors.rs`) -/

/-- A descriptor pool handle together with the `set_count` it was created with
(the `max_sets` field of its `DescriptorPoolCreateInfo`, see `create_pool`).
The `id` is a ghost identifier standing for the opaque `vk::DescriptorPool`
handle returned by the device. -/
structure Pool where
  id : Nat
  capacity : Nat
deriving DecidableEq, Repr

/-- State of `DescriptorAllocator` (descriptors.rs lines 154-161).  The `device`
and `ratios` fields are omitted: `ratios` only feeds the per-type
`descriptor_count` of `create_pool`, which no claim mentions.  `created_pools`
and `next_id` are ghost fields recording every pool the device has ever created
for this allocator, in creation order. -/
structure DescriptorAllocator where
  full_pools : List Pool
  ready_pools : List Pool
  sets_per_pool : Nat
  created_pools : List Pool
  next_id : Nat
deriving DecidableEq, Repr

/-- `DescriptorAllocator::new` (descriptors.rs lines 183-199): creates one pool
of capacity `max_sets`, puts it in `ready_pools`, and sets
`sets_per_pool = (max_sets as f32 * 1.5) as u32`.  For every `max_sets < 2^23`
the `f32` product `max_sets * 1.5` is exact and the `as u32` cast truncates, so
the value equals `max_sets * 3 / 2` in natural-number arithmetic. -/
def DescriptorAllocator.new (max_sets : Nat) : DescriptorAllocator :=
  let pool : Pool := { id := 0, capacity := max_sets }
  { full_pools := []
    ready_pools := [pool]
    sets_per_pool := max_sets * 3 / 2
    created_pools := [pool]
    next_id := 1 }

/-- `DescriptorAllocator::get_pool` (descriptors.rs lines 201-213):
`ready_pools.pop()` (removes the **last** element of the `Vec`) when non-empty,
otherwise `create_pool(device, sets_per_pool, ratios)`.  Pool creation never
fails in the model (the source unwraps the device call). -/
def DescriptorAllocator.get_pool (st : DescriptorAllocator) :
    Pool × DescriptorAllocator :=
  match st.ready_pools.getLast? with
  | some p => (p, { st with ready_pools := st.ready_pools.dropLast })
  | none =>
      let p : Pool := { id := st.next_id, capacity := st.sets_per_pool }
      (p, { st with created_pools := st.created_pools ++ [p],
                    next_id := st.next_id + 1 })

/-- `DescriptorAllocator::clear_pools` (descriptors.rs lines 312-315):
`full_pools.clear(); ready_pools.clear();`. -/
def DescriptorAllocator.clear_pools (st : DescriptorAllocator) :
    DescriptorAllocator :=
  { st with full_pools := [], ready_pools := [] }

/-- `DescriptorAllocator::reset_descriptors` (descriptors.rs lines 294-310):
calls `device.reset_descriptor_pool` on every pool of `ready_pools`, then on
every pool of `full_pools` pushing each onto `ready_pools`, and finally calls
`clear_pools()`.  The first component is the list of pools passed to
`reset_descriptor_pool`, in call order. -/
def DescriptorAllocator.reset_descriptors (st : DescriptorAllocator) :
    List Pool × DescriptorAllocator :=
  let resets := st.ready_pools ++ st.full_pools
  let merged := { st with ready_pools := st.ready_pools ++ st.full_pools }
  (resets, merged.clear_pools)

/-- Outcome of one `device.allocate_descriptor_sets` call, mirroring the
`ash::vk::Result` values inspected by `DescriptorAllocator::allocate`. -/
inductive DevOutcome where
  | ok
  | errOutOfPoolMemory
  | errFragmentedPool
  | errOther
deriving DecidableEq, Repr

/-- `vk::DescriptorSetAllocateInfo` as built in `allocate` (descriptors.rs
lines 334-337).  Layout handles are `Nat` ids. -/
structure DescriptorSetAllocateInfo where
  descriptor_pool : Pool
  set_layouts : List Nat
  descriptor_set_count : Nat
deriving DecidableEq, Repr

/-- The builder calls of descriptors.rs lines 334-337: `.set_layouts(layouts)`
sets `descriptor_set_count` to `layouts.len()` (ash builder semantics), and the
following statement `allocate_info.descriptor_set_count = 1;` overrides it. -/
def mk_allocate_info (pool : Pool) (layouts : List Nat) :
    DescriptorSetAllocateInfo :=
  let info : DescriptorSetAllocateInfo :=
    { descriptor_pool := pool
      set_layouts := layouts
      descriptor_set_count := layouts.length }
  { info with descriptor_set_count := 1 }

/-- Device model of `device.allocate_descriptor_sets`: on success Vulkan
returns exactly `descriptor_set_count` descriptor-set handles (modelled as
`List.range`); on any error it returns none of them. -/
def allocate_descriptor_sets (info : DescriptorSetAllocateInfo)
    (o : DevOutcome) : Option (List Nat) :=
  match o with
  | .ok => some (List.range info.descriptor_set_count)
  | _ => none

/-- `DescriptorSetDetails` (descriptors.rs lines 23-27): the allocated set
handles plus the layouts recorded with them. -/
structure DescriptorSetDetails where
  descriptor_set : List Nat
  layout : List Nat
deriving DecidableEq, Repr

/-- Result of `DescriptorAllocator::allocate`: either a `DescriptorSetDetails`
or a process abort (`fatal` models both the `panic!` on an unexpected error and
the `.unwrap()` on the retried device call). -/
inductive AllocOutcome where
  | success (details : DescriptorSetDetails)
  | fatal
deriving DecidableEq, Repr

/-- Full observable result of one `allocate` call: the outcome, the state the
allocator is left in, and the pools handed to `device.allocate_descriptor_sets`
in call order. -/
structure AllocResult where
  outcome : AllocOutcome
  state : DescriptorAllocator
  attempts : List Pool
deriving DecidableEq, Repr

/-- `DescriptorAllocator::allocate` (descriptors.rs lines 328-360).
`o1` and `o2` are the outcomes of the first and (if reached) second
`device.allocate_descriptor_sets` call.  On `ERROR_OUT_OF_POOL_MEMORY` or
`ERROR_FRAGMENTED_POOL` the exhausted pool is pushed onto `full_pools` (if not
already contained), a fresh pool is taken from `get_pool`, and the device call
is retried once with `.unwrap()`; any other error hits
`panic!("Something else went wrong here")`.  Note that on success the pool in
use is *not* returned to `ready_pools` — faithful to the source. -/
def DescriptorAllocator.allocate (st : DescriptorAllocator)
    (layouts : List Nat) (o1 o2 : DevOutcome) : AllocResult :=
  let pool_to_use := st.get_pool.1
  let st1 := st.get_pool.2
  let info := mk_allocate_info pool_to_use layouts
  match allocate_descriptor_sets info o1 with
  | some sets =>
      { outcome := .success { descriptor_set := sets, layout := layouts }
        state := st1
        attempts := [pool_to_use] }
  | none =>
      if o1 = .errOutOfPoolMemory ∨ o1 = .errFragmentedPool then
        let st2 :=
          if pool_to_use ∈ st1.full_pools then st1
          else { st1 with full_pools := st1.full_pools ++ [pool_to_use] }
        let pool2 := st2.get_pool.1
        let st3 := st2.get_pool.2
        let info2 := { info with descriptor_pool := pool2 }
        match allocate_descriptor_sets info2 o2 with
        | some sets =>
            { outcome := .success { descriptor_set := sets, layout := layouts }
              state := st3
              attempts := [pool_to_use, pool2] }
        | none => { outcome := .fatal, state := st3, attempts := [pool_to_use, pool2] }
      else { outcome := .fatal, state := st1, attempts := [pool_to_use] }

/-- One state-mutating operation on a `DescriptorAllocator`, for reachability
statements: an `allocate` call (with its device-outcome oracle) or a
`reset_descriptors` call. -/
inductive DAOp where
  | alloc (layouts : List Nat) (o1 o2 : DevOutcome)
  | reset
deriving DecidableEq, Repr

/-- Apply one operation to the allocator state. -/
def DescriptorAllocator.step (st : DescriptorAllocator) : DAOp → DescriptorAllocator
  | .alloc layouts o1 o2 => (st.allocate layouts o1 o2).state
  | .reset => st.reset_descriptors.2

/-- Run a sequence of operations from a state. -/
def DescriptorAllocator.run (st : DescriptorAllocator) (ops : List DAOp) :
    DescriptorAllocator :=
  ops.foldl DescriptorAllocator.step st

/-! ## Deletion queue (`src/components/deletion_queue.rs`) -/

/-- `FType` (deletion_queue.rs lines 50-54): the three deletion-task variants.
The closures / boxed `CleanUpTask` objects are opaque; each carries a ghost
`Nat` identifying the task. -/
inductive FType where
  | DEVICE (f : Nat)
  | MALLOC (f : Nat)
  | TASK (f : Nat)
deriving DecidableEq, Repr

/-- `DeletionQueue` (deletion_queue.rs lines 56-60).  The `device` and
`memory_allocator` handles only feed the executed closures and are omitted. -/
structure DeletionQueue where
  queue : List FType
deriving DecidableEq, Repr

/-- `DeletionQueue::new` (deletion_queue.rs lines 63-69). -/
def DeletionQueue.new : DeletionQueue := { queue := [] }

/-- `DeletionQueue::enqueue` (deletion_queue.rs lines 71-73):
`queue.push_back(func)`. -/
def DeletionQueue.enqueue (dq : DeletionQueue) (f : FType) : DeletionQueue :=
  { queue := dq.queue ++ [f] }

/-- `DeletionQueue::flush` (deletion_queue.rs lines 75-86): `drain(..)` runs
every queued task front-to-back (executing the matching closure), then
`queue.clear()`.  The first component is the list of executed tasks in
execution order. -/
def DeletionQueue.flush (dq : DeletionQueue) : List FType × DeletionQueue :=
  (dq.queue, { queue := [] })

/-- A queue built by enqueueing `ts` in order onto a fresh queue. -/
def build_queue (ts : List FType) : DeletionQueue :=
  ts.foldl DeletionQueue.enqueue DeletionQueue.new

/-! ## Renderer frame loop (`src/renderer.rs`) -/

/-- The externally visible effects of `Renderer::draw` (renderer.rs lines
575-670), in program order, each tagged with the frame slot it acts on.
`recreateSwapchain` is in the vocabulary because the spec discusses swapchain
recreation; `Renderer::draw` never performs it. -/
inductive REvent where
  | updateScene
  | waitFences (slot : Nat)
  | resetFences (slot : Nat)
  | acquireNextImage (slot : Nat)
  | resetCommandBuffer (slot : Nat)
  | flushDeletionQueue (slot : Nat)
  | recordCommandBuffer (slot : Nat)
  | eguiDraw (slot : Nat)
  | submitQueue (slot : Nat)
  | presentQueue (slot : Nat)
  | clearLayoutBuilder (slot : Nat)
  | resetDescriptors (slot : Nat)
  | clearDescriptorWriter (slot : Nat)
  | recreateSwapchain
deriving DecidableEq, Repr

/-- The trace of `Renderer::draw(frame_idx = i, window)` (renderer.rs lines
575-670), straight-line body in source order: `update_scene`;
`wait_for_fences(frame_data[i].render_fence)`; `reset_fences`;
`acquire_next_image` (signalling `swapchain_semaphore`);
`reset_command_buffer`; `frame_resources.per_frame_deletion_queue.flush()`;
`record_command_buffer`; `egui_renderer.draw`; `submit_queue` (signalling
`render_fence[0]`); `present_queue`; `descriptor_layout_builder.clear()`;
`descriptor_allocator.reset_descriptors`; `descriptor_writer.clear()`. -/
def drawTrace (i : Nat) : List REvent :=
  [ .updateScene
  , .waitFences i
  , .resetFences i
  , .acquireNextImage i
  , .resetCommandBuffer i
  , .flushDeletionQueue i
  , .recordCommandBuffer i
  , .eguiDraw i
  , .submitQueue i
  , .presentQueue i
  , .clearLayoutBuilder i
  , .resetDescriptors i
  , .clearDescriptorWriter i ]

/-- Index of the first occurrence of `e` in a trace (length of the trace when
absent). -/
def eventIdx {α : Type} [DecidableEq α] (e : α) : List α → Nat
  | [] => 0
  | x :: xs => if x = e then 0 else eventIdx e xs + 1

/-- Whether an `REvent` is a swapchain recreation. -/
def isRecreateSwapchain : REvent → Bool
  | .recreateSwapchain => true
  | _ => false

/-- `ImageIndex` (renderer.rs lines 121-142). -/
structure ImageIndex where
  index : Nat
  recreate_swapchain : Bool
deriving DecidableEq, Repr

/-- `ImageIndex::new` (renderer.rs lines 135-142): built from the
`(image index, suboptimal)` pair of `acquire_next_image`. -/
def ImageIndex.new (input : Nat × Bool) : ImageIndex :=
  { index := input.1, recreate_swapchain := input.2 }

/-- Errors `acquire_next_image` can return (as `Err` of the `ash` call);
`ERROR_OUT_OF_DATE_KHR` is the one the spec discusses.  A *suboptimal*
swapchain is not an error in `ash`: it is reported as `Ok((index, true))`. -/
inductive VkError where
  | outOfDateKHR
  | other
deriving DecidableEq, Repr

/-- The acquire step of `Renderer::draw` (renderer.rs lines 586-596):
`ImageIndex::new(self.swapchain.s_device.acquire_next_image(...).unwrap())`.
`Ok` is unwrapped into an `ImageIndex`; an `Err` makes the `.unwrap()` panic,
so the draw call never continues — modelled as `none`. -/
def acquire_step (res : Except VkError (Nat × Bool)) : Option ImageIndex :=
  match res with
  | .ok p => some (ImageIndex.new p)
  | .error _ => none

/-! ## Memory allocator upload paths (`src/components/memory_allocator.rs`) -/

/-- Effects performed by the staged-upload paths of `MemoryAllocator`.
Buffers and images are `Nat` handles (0 = the staging buffer, 1 = the
destination resource). -/
inductive MEvent where
  | createBuffer (id : Nat)
  | mapMemory (id : Nat)
  | writePayload (id : Nat)
  | unmapMemory (id : Nat)
  | createImage (id : Nat)
  | beginOneShot
  | transitionLayout (id : Nat)
  | copyBufferToImage (src dst : Nat)
  | copyBuffer (src dst : Nat)
  | queueWaitIdle
  | endOneShot
  | destroyBuffer (id : Nat)
deriving DecidableEq, Repr

/-- Trace of `MemoryAllocator::staging_buffer` (memory_allocator.rs lines
268-295) for a staging buffer with handle `id`: `allocate_single_buffer`,
`map_memory`, `copy_nonoverlapping`, `unmap_memory`. -/
def staging_buffer_trace (id : Nat) : List MEvent :=
  [.createBuffer id, .mapMemory id, .writePayload id, .unmapMemory id]

/-- Trace of `MemoryAllocator::create_image_with_data` (memory_allocator.rs
lines 124-173): staging buffer (handle 0), `create_image` (handle 1), a
one-shot command buffer with the two layout transitions around
`VkBuffer::copy_buffer_to_image`, and `end_single_time_command` (which submits
and blocks via `queue_wait_idle`).  The staging buffer is never destroyed in
this function. -/
def create_image_with_data_trace : List MEvent :=
  staging_buffer_trace 0 ++
  [ .createImage 1
  , .beginOneShot
  , .transitionLayout 1
  , .copyBufferToImage 0 1
  , .transitionLayout 1
  , .endOneShot
  , .queueWaitIdle ]

/-- Trace of `MemoryAllocator::create_buffer_with_mapped_memory`
(memory_allocator.rs lines 297-344): staging buffer (handle 0), a second
map/write/unmap of the same payload in the function body, destination buffer
(handle 1), `VkBuffer::copy_buffer` (a one-shot command that submits and blocks
on `queue_wait_idle` via `end_single_time_command`, buffers.rs lines 162-177
and command_buffers.rs lines 90-102), then `destroy_buffer` on the staging
buffer. -/
def create_buffer_with_mapped_memory_trace : List MEvent :=
  staging_buffer_trace 0 ++
  [ .mapMemory 0, .writePayload 0, .unmapMemory 0
  , .createBuffer 1
  , .copyBuffer 0 1
  , .queueWaitIdle
  , .destroyBuffer 0 ]

/-- Number of `destroy_buffer` calls in a trace. -/
def destroy_buffer_count (tr : List MEvent) : Nat :=
  (tr.filter fun e =>
    match e with
    | .destroyBuffer _ => true
    | _ => false).length

/-! ## Theorems -/

/-- `get_pool` never changes `sets_per_pool`. -/
theorem get_pool_sets_per_pool (st : DescriptorAllocator) :
    st.get_pool.2.sets_per_pool = st.sets_per_pool := by
  unfold DescriptorAllocator.get_pool
  split <;> rfl

/-- `get_pool` never changes `full_pools`. -/
theorem get_pool_full_pools (st : DescriptorAllocator) :
    st.get_pool.2.full_pools = st.full_pools := by
  unfold DescriptorAllocator.get_pool
  split <;> rfl

/-- `get_pool` either leaves `created_pools` unchanged (pop branch) or appends
one pool of capacity `sets_per_pool` (creation branch). -/
theorem get_pool_created_pools (st : DescriptorAllocator) :
    st.get_pool.2.created_pools = st.created_pools ∨
      st.get_pool.2.created_pools =
        st.created_pools ++ [⟨st.next_id, st.sets_per_pool⟩] := by
  unfold DescriptorAllocator.get_pool
  split
  · exact Or.inl rfl
  · exact Or.inr rfl

/-- Capacity invariant transported through `get_pool`. -/
theorem get_pool_capacity_inv (m c : Nat) (st : DescriptorAllocator)
    (h1 : st.sets_per_pool = c)
    (h2 : ∀ p ∈ st.created_pools, p.capacity = m ∨ p.capacity = c) :
    st.get_pool.2.sets_per_pool = c ∧
      ∀ p ∈ st.get_pool.2.created_pools, p.capacity = m ∨ p.capacity = c := by
  refine ⟨(get_pool_sets_per_pool st).trans h1, ?_⟩
  rcases get_pool_created_pools st with h | h <;> rw [h]
  · exact h2
  · intro p hp
    rcases List.mem_append.mp hp with hp | hp
    · exact h2 p hp
    · simp only [List.mem_singleton] at hp
      subst hp
      exact Or.inr h1

/-- Capacity invariant transported through `allocate`. -/
theorem allocate_capacity_inv (m c : Nat) (st : DescriptorAllocator)
    (layouts : List Nat) (o1 o2 : DevOutcome)
    (h1 : st.sets_per_pool = c)
    (h2 : ∀ p ∈ st.created_pools, p.capacity = m ∨ p.capacity = c) :
    (st.allocate layouts o1 o2).state.sets_per_pool = c ∧
      ∀ p ∈ (st.allocate layouts o1 o2).state.created_pools,
        p.capacity = m ∨ p.capacity = c := by
  have hst1 := get_pool_capacity_inv m c st h1 h2
  unfold DescriptorAllocator.allocate
  cases o1 <;> simp only [allocate_descriptor_sets] <;> try exact hst1
  all_goals
    simp only [reduceCtorEq, reduceIte, or_self, or_true, true_or, if_true]
  all_goals
    cases o2 <;> simp only [allocate_descriptor_sets]
  all_goals
    split
  all_goals
    exact get_pool_capacity_inv m c _ hst1.1 hst1.2

/-- Capacity invariant transported through one `DAOp`. -/
theorem step_capacity_inv (m c : Nat) (st : DescriptorAllocator) (op : DAOp)
    (h1 : st.sets_per_pool = c)
    (h2 : ∀ p ∈ st.created_pools, p.capacity = m ∨ p.capacity = c) :
    (st.step op).sets_per_pool = c ∧
      ∀ p ∈ (st.step op).created_pools, p.capacity = m ∨ p.capacity = c := by
  cases op with
  | alloc layouts o1 o2 => exact allocate_capacity_inv m c st layouts o1 o2 h1 h2
  | reset =>
      simp only [DescriptorAllocator.step, DescriptorAllocator.reset_descriptors,
        DescriptorAllocator.clear_pools]
      exact ⟨h1, h2⟩

/-- Capacity invariant transported through any operation sequence. -/
theorem run_capacity_inv (m c : Nat) (ops : List DAOp) :
    ∀ st : DescriptorAllocator, st.sets_per_pool = c →
      (∀ p ∈ st.created_pools, p.capacity = m ∨ p.capacity = c) →
      ∀ p ∈ (st.run ops).created_pools, p.capacity = m ∨ p.capacity = c := by
  induction ops with
  | nil => intro st _ h2; exact h2
  | cons op ops ih =>
      intro st h1 h2
      have h := step_capacity_inv m c st op h1 h2
      exact ih (st.step op) h.1 h.2

/-- Every outcome of `allocate` is either fatal or a success carrying exactly
the sets from a count-1 device allocation plus the input layouts. -/
theorem allocate_outcome_cases (st : DescriptorAllocator) (layouts : List Nat)
    (o1 o2 : DevOutcome) :
    (st.allocate layouts o1 o2).outcome = .fatal ∨
      (st.allocate layouts o1 o2).outcome =
        .success { descriptor_set := List.range 1, layout := layouts } := by
  unfold DescriptorAllocator.allocate
  cases o1 <;> cases o2 <;> simp [allocate_descriptor_sets, mk_allocate_info]

/-- The queue assembled by `build_queue` holds the tasks in enqueue order. -/
theorem build_queue_eq (ts : List FType) (init : List FType) :
    (ts.foldl DeletionQueue.enqueue { queue := init }).queue = init ++ ts := by
  induction ts generalizing init with
  | nil => simp
  | cons t ts ih => simp [DeletionQueue.enqueue, ih]

/-- **C1**: in every iteration of the frame loop on slot `i`, the wait on slot
`i`'s completion fence strictly precedes the flush of slot `i`'s per-frame
DeletionQueue in the trace of `Renderer::draw`. -/
theorem c1_fence_wait_precedes_flush (i : Nat) :
    eventIdx (REvent.waitFences i) (drawTrace i) <
      eventIdx (REvent.flushDeletionQueue i) (drawTrace i) := by
  simp [drawTrace, eventIdx]

/-- **C2 counterexample**: in the `Renderer::draw` trace (slot 0, each listed
event occurring exactly once), the swapchain-image acquisition strictly
precedes the per-frame DeletionQueue flush, and the present strictly precedes
the per-frame DescriptorAllocator pool reset — so the claimed order (flush and
pool reset before acquisition) is false. -/
theorem c2_counterexample :
    eventIdx (REvent.acquireNextImage 0) (drawTrace 0) <
      eventIdx (REvent.flushDeletionQueue 0) (drawTrace 0) ∧
    eventIdx (REvent.presentQueue 0) (drawTrace 0) <
      eventIdx (REvent.resetDescriptors 0) (drawTrace 0) ∧
    (drawTrace 0).count (REvent.acquireNextImage 0) = 1 ∧
    (drawTrace 0).count (REvent.flushDeletionQueue 0) = 1 ∧
    (drawTrace 0).count (REvent.resetDescriptors 0) = 1 := by decide

/-- **C2 (amended)**: in each frame-loop iteration for slot `i`, the Renderer
waits on slot `i`'s completion fence, then resets the fence, then acquires a
swapchain image, then resets the command buffer, then flushes slot `i`'s
per-frame DeletionQueue, then records commands (scene, then UI), then submits
to the graphics queue, then presents, and only then resets slot `i`'s
per-frame DescriptorAllocator pools. -/
theorem c2_amended_draw_order (i : Nat) :
    eventIdx (REvent.waitFences i) (drawTrace i) <
      eventIdx (REvent.resetFences i) (drawTrace i) ∧
    eventIdx (REvent.resetFences i) (drawTrace i) <
      eventIdx (REvent.acquireNextImage i) (drawTrace i) ∧
    eventIdx (REvent.acquireNextImage i) (drawTrace i) <
      eventIdx (REvent.resetCommandBuffer i) (drawTrace i) ∧
    eventIdx (REvent.resetCommandBuffer i) (drawTrace i) <
      eventIdx (REvent.flushDeletionQueue i) (drawTrace i) ∧
    eventIdx (REvent.flushDeletionQueue i) (drawTrace i) <
      eventIdx (REvent.recordCommandBuffer i) (drawTrace i) ∧
    eventIdx (REvent.recordCommandBuffer i) (drawTrace i) <
      eventIdx (REvent.eguiDraw i) (drawTrace i) ∧
    eventIdx (REvent.eguiDraw i) (drawTrace i) <
      eventIdx (REvent.submitQueue i) (drawTrace i) ∧
    eventIdx (REvent.submitQueue i) (drawTrace i) <
      eventIdx (REvent.presentQueue i) (drawTrace i) ∧
    eventIdx (REvent.presentQueue i) (drawTrace i) <
      eventIdx (REvent.resetDescriptors i) (drawTrace i) := by
  simp [drawTrace, eventIdx]

/-- **C3**: evaluation at the failing input.  Starting from
`DescriptorAllocator::new(max_sets = 10)` (one pool created), a single
successful `allocate` leaves **both** `ready_pools` and `full_pools` empty
while the pool still exists: `get_pool` pops the pool and `allocate` never
returns it to either list, so the union of the two lists no longer equals the
set of pools ever created — the claimed invariant fails. -/
theorem c3_union_invariant_fails_after_allocate :
    ((DescriptorAllocator.new 10).allocate [0] .ok .ok).state.ready_pools = [] ∧
    ((DescriptorAllocator.new 10).allocate [0] .ok .ok).state.full_pools = [] ∧
    ((DescriptorAllocator.new 10).allocate [0] .ok .ok).state.created_pools
      = [⟨0, 10⟩] := by decide

/-- **C4**: evaluation at the failing input.  On the reachable state with
`ready_pools = []`, `full_pools = [⟨0,16⟩]` (after `new(16)` and one
pool-exhausted `allocate`), `reset_descriptors` does call
`reset_descriptor_pool` on the tracked pool, but the final `clear_pools()`
empties **both** lists: the previous `full` pool is not merged into `ready`
(the claim requires `ready_pools = [⟨0,16⟩]`), and the pools (including the
leaked second pool `⟨1,24⟩`) drop out of the allocator's bookkeeping. -/
theorem c4_reset_drops_all_pools :
    (((DescriptorAllocator.new 16).allocate [0] .errOutOfPoolMemory .ok).state.ready_pools = [] ∧
     ((DescriptorAllocator.new 16).allocate [0] .errOutOfPoolMemory .ok).state.full_pools = [⟨0, 16⟩]) ∧
    ((DescriptorAllocator.new 16).allocate [0] .errOutOfPoolMemory .ok).state.reset_descriptors.1
      = [⟨0, 16⟩] ∧
    ((DescriptorAllocator.new 16).allocate [0] .errOutOfPoolMemory .ok).state.reset_descriptors.2.ready_pools
      = [] ∧
    ((DescriptorAllocator.new 16).allocate [0] .errOutOfPoolMemory .ok).state.reset_descriptors.2.full_pools
      = [] ∧
    ((DescriptorAllocator.new 16).allocate [0] .errOutOfPoolMemory .ok).state.reset_descriptors.2.created_pools
      = [⟨0, 16⟩, ⟨1, 24⟩] := by decide

/-- **C5 counterexample**: with `max_sets = 10`, running two pool-exhausted
`allocate` calls creates pools of capacities `[10, 15, 15, 15]`: the pool
created on the second exhaustion (from a pool of capacity 15) has capacity 15,
not 22, and no pool of capacity 22 is ever created — `sets_per_pool` is
computed once in `new` and never grows. -/
theorem c5_counterexample :
    (((DescriptorAllocator.new 10).run
        [.alloc [0] .errOutOfPoolMemory .ok,
         .alloc [0] .errOutOfPoolMemory .ok]).created_pools.map Pool.capacity
      = [10, 15, 15, 15]) ∧
    (((DescriptorAllocator.new 10).run
        [.alloc [0] .errOutOfPoolMemory .ok,
         .alloc [0] .errOutOfPoolMemory .ok]).created_pools.map Pool.capacity).contains 22
      = false := by decide

/-- **C5 (amended)**: pool capacities do not grow geometrically per pool.
Every pool a `DescriptorAllocator` constructed with `new(max_sets)` ever
creates, across any sequence of `allocate` / `reset_descriptors` operations,
has capacity `max_sets` (the initial pool) or `max_sets * 3 / 2`
(`(max_sets as f32 * 1.5) as u32`, computed once in `new` — every
exhaustion-created pool, the second included, has this same capacity). -/
theorem c5_amended_capacity_constant (m : Nat) (ops : List DAOp) (p : Pool)
    (hp : p ∈ ((DescriptorAllocator.new m).run ops).created_pools) :
    p.capacity = m ∨ p.capacity = m * 3 / 2 := by
  refine run_capacity_inv m (m * 3 / 2) ops (DescriptorAllocator.new m) rfl ?_ p hp
  intro q hq
  simp only [DescriptorAllocator.new, List.mem_singleton] at hq
  subst hq
  exact Or.inl rfl

/-- Witness for C5 (amended) at `max_sets = 10` and one exhausted `allocate`:
the pool `⟨1, 15⟩` created on exhaustion. -/
theorem c5_amended_capacity_witness :
    (⟨1, 15⟩ : Pool).capacity = 10 ∨ (⟨1, 15⟩ : Pool).capacity = 10 * 3 / 2 :=
  c5_amended_capacity_constant 10 [.alloc [0] .errOutOfPoolMemory .ok] ⟨1, 15⟩
    (by decide)

/-- **C6**: `allocate` makes at most two `allocate_descriptor_sets` attempts.
If the first succeeds, or fails with anything other than
`ERROR_OUT_OF_POOL_MEMORY` / `ERROR_FRAGMENTED_POOL`, `full_pools` is left
unchanged (a pool is never moved to `full` speculatively) and no retry is
made — an unexpected error is fatal immediately.  On an
out-of-pool-memory/fragmented-pool error the exhausted pool ends up in
`full_pools` and exactly one retry is made against a fresh pool from
`get_pool`; a second failure, of any kind, is fatal with no further retry. -/
theorem c6_allocate_retry_discipline (st : DescriptorAllocator)
    (layouts : List Nat) (o1 o2 : DevOutcome) :
    (st.allocate layouts o1 o2).attempts.length ≤ 2 ∧
    (o1 = .ok →
      (st.allocate layouts o1 o2).attempts.length = 1 ∧
      (st.allocate layouts o1 o2).state.full_pools = st.full_pools) ∧
    (o1 = .errOther →
      (st.allocate layouts o1 o2).outcome = .fatal ∧
      (st.allocate layouts o1 o2).attempts.length = 1 ∧
      (st.allocate layouts o1 o2).state.full_pools = st.full_pools) ∧
    ((o1 = .errOutOfPoolMemory ∨ o1 = .errFragmentedPool) →
      (st.allocate layouts o1 o2).attempts.length = 2 ∧
      st.get_pool.1 ∈ (st.allocate layouts o1 o2).state.full_pools ∧
      (o2 = .ok →
        (st.allocate layouts o1 o2).outcome =
          .success { descriptor_set := [0], layout := layouts }) ∧
      (o2 ≠ .ok → (st.allocate layouts o1 o2).outcome = .fatal)) := by
  have hfull := get_pool_full_pools st
  unfold DescriptorAllocator.allocate
  cases o1 <;> cases o2 <;>
    simp_all [allocate_descriptor_sets, List.range, List.range.loop] <;>
    rw [get_pool_full_pools] <;>
    split <;>
    simp_all [List.mem_append]

/-- Witness for C6: a concrete double failure
(`ERROR_OUT_OF_POOL_MEMORY` then `ERROR_FRAGMENTED_POOL`) is fatal. -/
theorem c6_retry_witness :
    ((DescriptorAllocator.new 10).allocate [0]
        .errOutOfPoolMemory .errFragmentedPool).outcome = .fatal :=
  ((c6_allocate_retry_discipline (DescriptorAllocator.new 10) [0]
      .errOutOfPoolMemory .errFragmentedPool).2.2.2 (Or.inl rfl)).2.2.2
    (by decide)

/-- **C7**: flushing a DeletionQueue holding the enqueued tasks `ts` executes
exactly those tasks, in FIFO enqueue order, and leaves the queue empty; a
second `flush` immediately after executes no task at all. -/
theorem c7_fifo_flush (ts : List FType) :
    (build_queue ts).flush.1 = ts ∧
    (build_queue ts).flush.2.queue = [] ∧
    (build_queue ts).flush.2.flush.1 = [] := by
  refine ⟨?_, rfl, rfl⟩
  simp [build_queue, DeletionQueue.flush, DeletionQueue.new, build_queue_eq]

/-- **C8 counterexample**: when `acquire_next_image` reports the swapchain out
of date (the `ash` call returns `Err(ERROR_OUT_OF_DATE_KHR)`), the `.unwrap()`
in `Renderer::draw` panics: the acquire step produces no `ImageIndex` and the
frame loop terminates instead of recreating the swapchain. -/
theorem c8_counterexample :
    acquire_step (.error .outOfDateKHR) = none := rfl

/-- **C8 (amended)**: a *suboptimal* acquisition (reported as
`Ok((index, true))`) does not terminate the frame loop — the flag is stored in
`ImageIndex.recreate_swapchain` — but no swapchain recreation is ever
triggered (`Renderer::draw` performs no recreation step); an *out-of-date*
acquisition (reported as `Err`) is unwrapped and panics, terminating the frame
loop. -/
theorem c8_amended_acquire_handling (n : Nat) (e : VkError) (i : Nat) :
    acquire_step (.ok (n, true)) =
      some { index := n, recreate_swapchain := true } ∧
    acquire_step (.error e) = none ∧
    (drawTrace i).any isRecreateSwapchain = false :=
  ⟨rfl, rfl, rfl⟩

/-- **C9**: evaluation at the failing input.  The buffer upload path
(`create_buffer_with_mapped_memory`) destroys its staging buffer exactly once,
after the copy that consumes it and after blocking on the copying queue; the
image upload path (`create_image_with_data`) performs **no** `destroy_buffer`
call at all — its staging buffer outlives the call. -/
theorem c9_image_upload_leaks_staging_buffer :
    destroy_buffer_count create_image_with_data_trace = 0 ∧
    destroy_buffer_count create_buffer_with_mapped_memory_trace = 1 ∧
    eventIdx (MEvent.copyBuffer 0 1) create_buffer_with_mapped_memory_trace <
      eventIdx (MEvent.destroyBuffer 0) create_buffer_with_mapped_memory_trace ∧
    eventIdx MEvent.queueWaitIdle create_buffer_with_mapped_memory_trace <
      eventIdx (MEvent.destroyBuffer 0) create_buffer_with_mapped_memory_trace := by
  decide

/-- **C10**: the `DescriptorSetAllocateInfo` built by `allocate` always
requests exactly one descriptor set (`descriptor_set_count` is forced to 1
after `.set_layouts(layouts)` set it to `layouts.len()`), so a successful
`allocate` returns exactly one set handle while the returned
`DescriptorSetDetails` carries the complete input layout list. -/
theorem c10_single_set_per_allocate (pool : Pool) (st : DescriptorAllocator)
    (layouts : List Nat) (o1 o2 : DevOutcome) (d : DescriptorSetDetails) :
    (mk_allocate_info pool layouts).descriptor_set_count = 1 ∧
    ((st.allocate layouts o1 o2).outcome = .success d →
      d.descriptor_set.length = 1 ∧ d.layout = layouts) := by
  refine ⟨rfl, fun h => ?_⟩
  rcases allocate_outcome_cases st layouts o1 o2 with hf | hs
  · rw [hf] at h
    exact absurd h (by simp)
  · rw [hs] at h
    injection h with h'
    subst h'
    exact ⟨by simp, rfl⟩

/-- Witness for C10: a concrete first-try success with two layouts returns one
set and both layouts. -/
theorem c10_witness :
    ({ descriptor_set := [0], layout := [5, 6] } :
        DescriptorSetDetails).descriptor_set.length = 1 ∧
    ({ descriptor_set := [0], layout := [5, 6] } :
        DescriptorSetDetails).layout = [5, 6] :=
  (c10_single_set_per_allocate ⟨0, 10⟩ (DescriptorAllocator.new 10) [5, 6]
      .ok .ok { descriptor_set := [0], layout := [5, 6] }).2 (by decide)
